import Mathlib

/-!
Verification development for the QCamera3 post-processing pipeline
(`hardware/qcom/camera/QCamera2/HAL3/QCamera3PostProc.cpp`).

The C++ source is shallowly embedded: pure helper functions become Lean
functions, the data-process thread's command handler becomes an explicit
step function on a state record, and resource release calls are recorded
in an event log.  Machine integers are modelled as `Int`/`Nat` with
explicit wrap-around where a narrowing cast occurs in the source.
-/

namespace QC3

/-- Android status codes (from `utils/Errors.h`): the source returns
`NO_ERROR`, `BAD_VALUE`, `NO_MEMORY`, `UNKNOWN_ERROR`.  Their concrete
numeric values are irrelevant to the claims, so they are modelled as an
inductive. -/
inductive Status where
  | noError
  | badValue
  | noMemory
  | unknownError
deriving DecidableEq, Repr

/-- `rat_t`: EXIF rational with `uint32_t num` / `uint32_t denom`. -/
structure Rat_t where
  num : Nat
  denom : Nat
deriving DecidableEq, Repr

/-- `getRational(rat_t *rat, int num, int denom)` (QCamera3PostProc.cpp,
lines 1954-1967): rejects negative numerators and non-positive
denominators with `BAD_VALUE`, otherwise stores the pair (the casts
`(uint32_t)num` / `(uint32_t)denom` are value-preserving because of the
sign checks). -/
def getRational (num denom : Int) : Except Status Rat_t :=
  if 0 > num ∨ 0 ≥ denom then
    .error .badValue
  else
    .ok ⟨num.toNat, denom.toNat⟩

/-- Narrowing cast from a 64-bit signed value to `int` (32-bit),
two's-complement wrap-around, as performed by `(int)cal_exposureTime`. -/
def int32OfInt64 (v : Int) : Int :=
  let m := v % 4294967296
  if m < 2147483648 then m else m - 4294967296

/-- `getExifExpTimeInfo(rat_t *expoTimeInfo, int64_t value)`
(lines 2081-2091): uses `value` as denominator when nonzero, else 60,
then delegates to `getRational(expoTimeInfo, 1, (int)cal_exposureTime)`. -/
def getExifExpTimeInfo (value : Int) : Except Status Rat_t :=
  let cal_exposureTime : Int := if value ≠ 0 then value else 60
  getRational 1 (int32OfInt64 cal_exposureTime)

/-- `MAX_HAL3_EXIF_TABLE_ENTRIES` from `QCamera3PostProc.h` (the header is
not part of the reviewed sources; the claims are independent of the
concrete value of this fixed capacity). -/
def MAX_HAL3_EXIF_TABLE_ENTRIES : Nat := 23

/-- One EXIF tag entry as stored by `QCamera3Exif::addEntry`.  The payload
is kept abstract (a tag id, a type code and a count): the claims are about
the collection discipline, not about the payload bytes. -/
structure ExifEntry where
  tagId : Nat
  type : Nat
  count : Nat
deriving DecidableEq, Repr

/-- `QCamera3Exif`: fixed-capacity entry table with an entry count
(`m_Entries` / `m_nNumEntries`), modelled as the list of occupied slots. -/
structure QCamera3Exif where
  entries : List ExifEntry
deriving DecidableEq, Repr

/-- `QCamera3Exif::addEntry` (lines 2637-2792): rejects with `NO_MEMORY`
and no mutation when `m_nNumEntries >= MAX_HAL3_EXIF_TABLE_ENTRIES`;
otherwise fills slot `m_nNumEntries` and increments the count (the count
is incremented even when an inner payload allocation fails; `mallocOk`
is that allocation oracle). -/
def QCamera3Exif.addEntry (e : QCamera3Exif) (entry : ExifEntry)
    (mallocOk : Bool) : QCamera3Exif × Status :=
  if e.entries.length ≥ MAX_HAL3_EXIF_TABLE_ENTRIES then
    (e, .noMemory)
  else
    ({ entries := e.entries ++ [entry] },
     if mallocOk then .noError else .noMemory)

/-- Quality selection shared by `getJpegEncodeConfig` (lines 436-440):
`encode_parm.quality = jpeg_settings->jpeg_quality; if (quality <= 0)
quality = 85;`.  Both fields are unsigned (`uint32_t`), modelled as `Nat`. -/
def getJpegEncodeConfigQuality (jpeg_quality : Nat) : Nat :=
  let quality := jpeg_quality
  if quality ≤ 0 then 85 else quality

/-- Quality selection in `getFWKJpegEncodeConfig` (lines 351-355),
textually identical to the one in `getJpegEncodeConfig`. -/
def getFWKJpegEncodeConfigQuality (jpeg_quality : Nat) : Nat :=
  let quality := jpeg_quality
  if quality ≤ 0 then 85 else quality

/-- `cam_dimension_t`: width and height (`int32_t` each). -/
structure Dim where
  width : Int
  height : Int
deriving DecidableEq, Repr

/-- The width/height swap applied for pre-rotation. -/
def swapDim (d : Dim) : Dim := ⟨d.height, d.width⟩

/-- One plane's `stride`/`scanline` of `cam_frame_len_offset_t.mp[0]`. -/
structure PlaneOffset where
  stride : Int
  scanline : Int
deriving DecidableEq, Repr

/-- The dimension/offset part of the `mm_jpeg_encode_params_t` built for
`create_session` in `encodeData` (fields touched by lines 1430-1461). -/
structure SessionParams where
  mainSrc : Dim
  mainDst : Dim
  thumbSrc : Dim
  thumbDst : Dim
  mainOffset : PlaneOffset
  thumbOffset : PlaneOffset
  rotation : Int
deriving DecidableEq, Repr

/-- Session-parameter construction in `encodeData` (lines 1430-1461):
after `getJpegEncodeConfig` filled the buffer offsets, the source
dimensions and the main/thumbnail strides and scanlines are swapped when
the hardware does not rotate (`!needJpegRotation`) and the requested
orientation is 90 or 270; the destination dimensions are then assigned
unswapped, and `encodeParam.rotation` is set only when the hardware
rotates.  `mainOff`/`thumbOff` are the offsets `getJpegEncodeConfig`
stored in `src_main_buf[0]`/`src_thumb_buf[0]`. -/
def encodeDataSessionParams (needJpegRotation : Bool) (jpeg_orientation : Int)
    (src_dim dst_dim thumbnail_size : Dim)
    (mainOff thumbOff : PlaneOffset) : SessionParams :=
  let p0 : SessionParams :=
    { mainSrc := ⟨0, 0⟩, mainDst := ⟨0, 0⟩, thumbSrc := ⟨0, 0⟩,
      thumbDst := ⟨0, 0⟩, mainOffset := mainOff, thumbOffset := thumbOff,
      rotation := 0 }
  let p1 :=
    if ¬needJpegRotation ∧
        (jpeg_orientation = 90 ∨ jpeg_orientation = 270) then
      { p0 with
        mainSrc := ⟨src_dim.height, src_dim.width⟩,
        thumbSrc := ⟨src_dim.height, src_dim.width⟩,
        mainOffset := ⟨mainOff.scanline, mainOff.stride⟩,
        thumbOffset := ⟨thumbOff.scanline, thumbOff.stride⟩ }
    else
      { p0 with mainSrc := src_dim, thumbSrc := src_dim }
  let p2 := { p1 with mainDst := dst_dim, thumbDst := thumbnail_size }
  if needJpegRotation then { p2 with rotation := jpeg_orientation } else p2

/-- The dimension part of the `mm_jpeg_job_t` filled by
`encodeData`/`encodeFWKData` before `start_job`. -/
structure JobDims where
  mainSrc : Dim
  mainDst : Dim
  thumbSrc : Dim
  thumbDst : Dim
  rotation : Int
deriving DecidableEq, Repr

/-- Per-job dimension handling in `encodeData` (lines 1472-1558): the job
is zero-initialised; `rotation` is set when the hardware rotates; main
source and destination are swapped for a 90/270 request without hardware
rotation; inside the thumbnail block the thumbnail destination is first
assigned and then swapped under the same condition, together with the
thumbnail source. -/
def encodeDataJobDims (needJpegRotation : Bool) (jpeg_orientation : Int)
    (src_dim dst_dim thumbnail_size : Dim)
    (thumbnailNeeded : Bool) : JobDims :=
  let j0 : JobDims :=
    { mainSrc := ⟨0, 0⟩, mainDst := ⟨0, 0⟩, thumbSrc := ⟨0, 0⟩,
      thumbDst := ⟨0, 0⟩, rotation := 0 }
  let j1 := if needJpegRotation then { j0 with rotation := jpeg_orientation } else j0
  let j2 :=
    if ¬needJpegRotation ∧
        (jpeg_orientation = 90 ∨ jpeg_orientation = 270) then
      { j1 with
        mainSrc := ⟨src_dim.height, src_dim.width⟩,
        mainDst := ⟨dst_dim.height, dst_dim.width⟩ }
    else
      { j1 with mainSrc := src_dim, mainDst := dst_dim }
  if thumbnailNeeded then
    let t0 := { j2 with thumbDst := thumbnail_size }
    if ¬needJpegRotation ∧
        (jpeg_orientation = 90 ∨ jpeg_orientation = 270) then
      { t0 with
        thumbDst := ⟨t0.thumbDst.height, t0.thumbDst.width⟩,
        thumbSrc := ⟨src_dim.height, src_dim.width⟩ }
    else
      { t0 with thumbSrc := src_dim }
  else j2

/-- Per-job dimension handling in `encodeFWKData` (lines 1202-1280): main
dimensions as in `encodeData`; in the thumbnail block the rotation field
is set when the hardware rotates, otherwise the thumbnail destination is
swapped for 90/270; the thumbnail source is always the unswapped source
dimension. -/
def encodeFWKDataJobDims (needJpegRotation : Bool) (jpeg_orientation : Int)
    (src_dim dst_dim thumbnail_size : Dim)
    (thumbnailNeeded : Bool) : JobDims :=
  let j0 : JobDims :=
    { mainSrc := ⟨0, 0⟩, mainDst := ⟨0, 0⟩, thumbSrc := ⟨0, 0⟩,
      thumbDst := ⟨0, 0⟩, rotation := 0 }
  let j2 :=
    if ¬needJpegRotation ∧
        (jpeg_orientation = 90 ∨ jpeg_orientation = 270) then
      { j0 with
        mainSrc := ⟨src_dim.height, src_dim.width⟩,
        mainDst := ⟨dst_dim.height, dst_dim.width⟩ }
    else
      { j0 with mainSrc := src_dim, mainDst := dst_dim }
  if thumbnailNeeded then
    let t0 := { j2 with thumbDst := thumbnail_size }
    let t1 :=
      if needJpegRotation then
        { t0 with rotation := jpeg_orientation }
      else if jpeg_orientation = 90 ∨ jpeg_orientation = 270 then
        { t0 with thumbDst := ⟨t0.thumbDst.height, t0.thumbDst.width⟩ }
      else t0
    { t1 with thumbSrc := src_dim }
  else j2

/-- The fields of a `qcamera_hal3_jpeg_data_t` consulted by the
`encodeFWKData` argument-validation prologue.  Pointers are modelled as
`Option` over opaque identifiers. -/
structure FwkJpegJobView where
  fwk_frame : Option Nat
  src_frame : Option Nat
  metadata : Option Nat
  jpeg_settings : Option Nat
deriving DecidableEq, Repr

/-- The argument-validation prologue of `encodeFWKData`
(lines 1123-1157), up to and including the `mJpegClientHandle` check:

* a null job, a null `fwk_frame`, a null `metadata` or null
  `jpeg_settings` each return `BAD_VALUE`;
* the guard `(NULL != jpeg_job_data->src_frame) && (NULL !=
  jpeg_job_data->src_frame)` — the source tests `src_frame` twice —
  returns `BAD_VALUE`;
* a non-positive `mJpegClientHandle` returns `UNKNOWN_ERROR`.

`none` means the prologue passed and encoding proceeds. -/
def encodeFWKDataValidate (jpeg_job_data : Option FwkJpegJobView)
    (mJpegClientHandle : Nat) : Option Status :=
  match jpeg_job_data with
  | none => some .badValue
  | some job =>
    if job.fwk_frame = none then some .badValue
    else if job.metadata = none then some .badValue
    else if job.jpeg_settings = none then some .badValue
    else if job.src_frame ≠ none ∧ job.src_frame ≠ none then some .badValue
    else if mJpegClientHandle ≤ 0 then some .unknownError
    else none

/-- C's `(int)` truncation toward zero on a rational value. -/
def ctrunc (q : ℚ) : ℤ := if q < 0 then -⌊-q⌋ else ⌊q⌋

/-- The decimal rendering round-trip `snprintf(str, "%f", value)` followed
by `atof(str)`/`strtof(str)` in `getExifLatitude`/`getExifLongitude`:
`%f` renders with six fractional digits, so the parsed-back value is
`value` rounded to the nearest multiple of 10⁻⁶ (the negative zero
`-0.000000` parses back as a value equal to zero). -/
def render6 (value : ℚ) : ℚ := ((round (value * 1000000) : ℤ) : ℚ) / 1000000

/-- GPS degree/minute/second triple as stored into the three `rat_t`
slots by `parseGPSCoordinate`: `(deg, 1)`, `(min, 1)`, `(sec10k, 10000)`. -/
structure GPSTriple where
  deg : ℤ
  minutes : ℤ
  sec10k : ℤ
deriving DecidableEq, Repr

/-- `parseGPSCoordinate(const char *coord_str, rat_t *coord)`
(lines 1982-1999) applied to the already-parsed numeric value of
`coord_str`: the sign is discarded, the integer degrees are split off,
the fractional part is converted to minutes and then to seconds scaled by
10000, each truncated with an `(int)` cast. -/
def parseGPSCoordinate (x : ℚ) : GPSTriple :=
  let degF := if x < 0 then -x else x
  let minF := (degF - (ctrunc degF : ℚ)) * 60
  let secF := (minF - (ctrunc minF : ℚ)) * 60
  ⟨ctrunc degF, ctrunc minF, ctrunc (secF * 10000)⟩

/-- `getExifLatitude(rat_t *latitude, char *latRef, double value)`
(lines 2138-2157): renders `value` with `%f`, parses the coordinate from
the rendered string, and chooses the hemisphere letter from the rendered
string's parsed value (negative → `S`, else `N`). -/
def getExifLatitude (value : ℚ) : GPSTriple × Char :=
  let parsed := render6 value
  (parseGPSCoordinate parsed, if parsed < 0 then 'S' else 'N')

/-- `getExifLongitude(rat_t *longitude, char *lonRef, double value)`
(lines 2173-2192), identical to `getExifLatitude` with `W`/`E` letters. -/
def getExifLongitude (value : ℚ) : GPSTriple × Char :=
  let parsed := render6 value
  (parseGPSCoordinate parsed, if parsed < 0 then 'W' else 'E')

/-- Recombination `degrees + minutes/60 + seconds/3600` of the stored
triple, with seconds equal to `sec10k / 10000`. -/
def gpsRecombine (t : GPSTriple) : ℚ :=
  (t.deg : ℚ) + (t.minutes : ℚ) / 60 + ((t.sec10k : ℚ) / 10000) / 3600

/-! ### The data-process thread state machine

`dataProcessRoutine` (lines 1654-1936) together with the producer entry
points and `stop`/`flush` is embedded as a step function over an explicit
state.  Buffers, metadata buffers, settings records and framework frames
are opaque identifiers; pointers are `Option`.  Every resource-releasing
call (give a buffer back to its channel, return a metadata buffer, free a
settings record, ...) is recorded in an event log, so that claims about
release discipline become claims about the log. -/

/-- `qcamera_hal3_pp_buffer_t`: a captured input super-buffer wrapper. -/
structure PPBuffer where
  input : Option Nat
  frameNumber : Nat
deriving DecidableEq, Repr

/-- `qcamera_hal3_pp_data_t`: a postprocess job awaiting reprocessing. -/
structure PPJob where
  src_frame : Option Nat
  fwk_src_frame : Option Nat
  src_metadata : Option Nat
  jpeg_settings : Option Nat
deriving DecidableEq, Repr

/-- `qcamera_hal3_jpeg_data_t`: a jpeg encode job.  (The raw `metadata`
pointer aliases either `src_metadata` or the framework buffer and carries
no ownership, so it is not modelled separately.) -/
structure JpegJob where
  src_frame : Option Nat
  src_reproc_frame : Option Nat
  fwk_frame : Option Nat
  fwk_src_buffer : Option Nat
  src_metadata : Option Nat
  jpeg_settings : Option Nat
  jobId : Nat
deriving DecidableEq, Repr

/-- Observable actions of the pipeline: submissions to the two hardware
stages and every release of a borrowed or owned resource. -/
inductive Ev where
  /-- `encodeData`/`encodeFWKData` invoked for a job; the second field
  records the content of `m_ongoingJpegQ` at the moment of the call. -/
  | encodeCall (job : JpegJob) (ongoingAtCall : List JpegJob)
  /-- `m_pReprocChannel->doReprocessOffline` invoked (tagged by the frame
  number of the submitted frame). -/
  | reprocCall (frameNumber : Nat)
  /-- `mJpegHandle.abort_job`. -/
  | abortJob (jobId : Nat)
  /-- `mJpegHandle.destroy_session`. -/
  | destroySession (sessionId : Nat)
  /-- `releaseSuperBuf` → `m_parent->bufDone`: a captured buffer returned
  to its originating channel. -/
  | parentBufDone (buf : Nat)
  /-- `m_pReprocChannel->bufDone`: a reprocessed buffer returned. -/
  | reprocBufDone (buf : Nat)
  /-- `m_parent->metadataBufDone`: a metadata buffer released. -/
  | metadataBufDone (buf : Nat)
  /-- `free(jpeg_settings)`: an owned settings record freed. -/
  | freeSettings (settings : Nat)
  /-- `free(fwk_frame)`: a framework input frame freed. -/
  | freeFwkFrame (frame : Nat)
  /-- `m_pReprocChannel->stop()` + `delete`: the channel torn down. -/
  | channelDeleted
deriving DecidableEq, Repr

/-- `releaseJpegJobData` (lines 946-994): frees `src_reproc_frame`;
returns `src_frame` through the reprocess channel's `bufDone` (only when
the channel exists); releases `src_metadata` via `metadataBufDone` unless
a framework source buffer is attached (then that is merely freed); frees
`fwk_frame`, the EXIF object and `jpeg_settings`. -/
def releaseJpegJobData (reprocChannel : Bool) (job : JpegJob) : List Ev :=
  (match job.src_frame with
   | some b => if reprocChannel then [Ev.reprocBufDone b] else []
   | none => []) ++
  (match job.fwk_src_buffer with
   | some _ => []
   | none =>
     match job.src_metadata with
     | some m => [Ev.metadataBufDone m]
     | none => []) ++
  (match job.fwk_frame with
   | some f => [Ev.freeFwkFrame f]
   | none => []) ++
  (match job.jpeg_settings with
   | some s => [Ev.freeSettings s]
   | none => [])

/-- `releasePPInputData` (lines 812-825): returns the wrapped input
super-buffer to the parent channel. -/
def releasePPInputData (buf : PPBuffer) : List Ev :=
  match buf.input with
  | some b => [Ev.parentBufDone b]
  | none => []

/-- `releasePPJobData` (lines 1010-1034): when a source frame is present,
frees it and releases the source metadata buffer; frees the framework
source frame. -/
def releasePPJobData (pp_job : PPJob) : List Ev :=
  match pp_job.src_frame with
  | some _ =>
    (match pp_job.src_metadata with
     | some m => [Ev.metadataBufDone m]
     | none => [])
  | none => []

/-- `releaseOngoingPPData` (lines 876-888): returns the job's source
frame to the parent channel, then `releasePPJobData`. -/
def releaseOngoingPPData (pp_job : PPJob) : List Ev :=
  (match pp_job.src_frame with
   | some b => [Ev.parentBufDone b]
   | none => []) ++ releasePPJobData pp_job

/-- The state of one `QCamera3PostProcessor`: the dispatcher activity
flag, encoder session bookkeeping, the reprocess channel and the seven
job queues. -/
structure PostProcState where
  is_active : Bool
  needNewSess : Bool
  mJpegSessionId : Nat
  reprocChannel : Bool
  inputJpegQ : List JpegJob
  ongoingJpegQ : List JpegJob
  inputPPQ : List PPBuffer
  ongoingPPQ : List PPJob
  inputFWKPPQ : List Nat
  inputMetaQ : List Nat
  jpegSettingsQ : List Nat
deriving DecidableEq, Repr

/-- The state right after construction: thread not yet started on any
work, all queues empty, no session, no channel. -/
def initState : PostProcState :=
  { is_active := false, needNewSess := true, mJpegSessionId := 0,
    reprocChannel := false, inputJpegQ := [], ongoingJpegQ := [],
    inputPPQ := [], ongoingPPQ := [], inputFWKPPQ := [], inputMetaQ := [],
    jpegSettingsQ := [] }

/-- The jpeg-dispatch block of `CAMERA_CMD_TYPE_DO_NEXT_JOB`
(lines 1742-1766): only when `m_ongoingJpegQ` is empty, dequeue the next
job from `m_inputJpegQ`, enqueue it into `m_ongoingJpegQ`, and call
`encodeFWKData`/`encodeData` (recorded as one `encodeCall` event; the
session destroy/create inside the encoder call is reflected by a
`destroySession` event and the externally chosen `newSess` id).  On
encoder failure the job is dequeued from the tail of `m_ongoingJpegQ`
(`dequeue(false)`), released through `releaseJpegJobData` and freed. -/
def jpegBlock (s : PostProcState) (encodeOk : Bool) (newSess : Nat) :
    PostProcState × List Ev :=
  if s.ongoingJpegQ.isEmpty then
    match s.inputJpegQ with
    | [] => (s, [])
    | jpeg_job :: rest =>
      let s1 := { s with inputJpegQ := rest,
                         ongoingJpegQ := s.ongoingJpegQ ++ [jpeg_job] }
      let sessEvs :=
        if 0 < s1.mJpegSessionId then [Ev.destroySession s1.mJpegSessionId]
        else []
      let callEv := Ev.encodeCall jpeg_job s1.ongoingJpegQ
      if encodeOk then
        ({ s1 with mJpegSessionId := newSess, needNewSess := false },
         callEv :: sessEvs)
      else
        ({ s1 with mJpegSessionId := newSess,
                   ongoingJpegQ := s1.ongoingJpegQ.dropLast },
         callEv :: sessEvs ++ releaseJpegJobData s.reprocChannel jpeg_job)
  else (s, [])

/-- The framework-reprocess block of `CAMERA_CMD_TYPE_DO_NEXT_JOB`
(lines 1768-1812): dequeue a framework frame and the next settings
record, allocate a postprocess job (`mallocOk`), enqueue it into
`m_ongoingPPQ` and submit the frame through `doReprocessOffline`
(`reprocOk`; a failed `overrideFwkMetadata` only logs).  On any failure
the job is removed from `m_ongoingPPQ` (`dequeue(false)`) and the job
struct and frame are freed — the dequeued settings record is not freed. -/
def fwkPPBlock (s : PostProcState) (mallocOk reprocOk : Bool) :
    PostProcState × List Ev :=
  match s.inputFWKPPQ with
  | [] => (s, [])
  | fwk_frame :: restF =>
    let s0 := { s with inputFWKPPQ := restF }
    let settingsAndState : Option Nat × PostProcState :=
      match s0.jpegSettingsQ with
      | [] => (none, s0)
      | sid :: restS => (some sid, { s0 with jpegSettingsQ := restS })
    let jpeg_settings := settingsAndState.1
    let s1 := settingsAndState.2
    if mallocOk then
      if s1.reprocChannel then
        let pp_job : PPJob :=
          { src_frame := none, fwk_src_frame := some fwk_frame,
            src_metadata := none, jpeg_settings := jpeg_settings }
        let s2 := { s1 with ongoingPPQ := s1.ongoingPPQ ++ [pp_job] }
        if reprocOk then (s2, [Ev.reprocCall fwk_frame])
        else
          ({ s2 with ongoingPPQ := s2.ongoingPPQ.dropLast },
           [Ev.reprocCall fwk_frame, Ev.freeFwkFrame fwk_frame])
      else (s1, [Ev.freeFwkFrame fwk_frame])
    else (s1, [Ev.freeFwkFrame fwk_frame])

/-- `processPPData` (lines 703-747): dequeue the head of `m_ongoingPPQ`;
fail with `BAD_VALUE` when there is no job, the job has neither source,
or it has no settings (the dequeued job is then dropped); fail with
`NO_MEMORY` when the jpeg-job allocation fails; otherwise build the jpeg
job from the reprocessed `frame` and the tracked job and enqueue it into
`m_inputJpegQ`. -/
def processPPDataStep (s : PostProcState) (frame : Option Nat)
    (mallocOk : Bool) : PostProcState × List Ev × Status :=
  match s.ongoingPPQ with
  | [] => (s, [], .badValue)
  | job :: rest =>
    if job.src_frame = none ∧ job.fwk_src_frame = none then
      (s, [], .badValue)
    else
      let s0 := { s with ongoingPPQ := rest }
      if job.jpeg_settings = none then (s0, [], .badValue)
      else if ¬mallocOk then (s0, [], .noMemory)
      else
        let jpeg_job : JpegJob :=
          { src_frame := frame
            src_reproc_frame :=
              if frame ≠ job.src_frame then job.src_frame else none
            fwk_frame := none
            fwk_src_buffer := job.fwk_src_frame
            src_metadata := job.src_metadata
            jpeg_settings := job.jpeg_settings
            jobId := 0 }
        ({ s0 with inputJpegQ := s0.inputJpegQ ++ [jpeg_job] }, [], .noError)

/-- Release sequence of the captured-frame pairing failure path
(lines 1870-1887): the pp job struct is freed, the captured buffer is
returned to the parent channel and freed, the metadata buffer is
released and freed.  The settings record dequeued for the pairing is not
freed here. -/
def ppPairFailRelease (pp_buffer : PPBuffer) (meta_buffer : Nat) :
    List Ev :=
  (match pp_buffer.input with
   | some b => [Ev.parentBufDone b]
   | none => []) ++ [Ev.metadataBufDone meta_buffer]

/-- The captured-frame pairing block of `CAMERA_CMD_TYPE_DO_NEXT_JOB`
(lines 1814-1895): under `mReprocJobLock`, when both `m_inputPPQ` and
`m_inputMetaQ` are non-empty, dequeue one buffer, one metadata buffer and
the next settings record; allocate a pp job (`mallocOk`), enqueue it into
`m_ongoingPPQ`; with a reprocess channel run `overrideMetadata`
(`overrideOk`) and `doReprocessOffline` (`reprocOk`), removing the job
from `m_ongoingPPQ` again only when the offline submission fails; without
a channel call `processPPData` directly.  On failure (`ret != 0`) the
job struct is freed and the buffer and metadata are released via
`ppPairFailRelease`; on success only the wrapper struct is freed. -/
def ppBlock (s : PostProcState) (mallocOk overrideOk reprocOk
    ppdMallocOk : Bool) : PostProcState × List Ev :=
  match s.inputPPQ, s.inputMetaQ with
  | pp_buffer :: restP, meta_buffer :: restM =>
    let s0 := { s with inputPPQ := restP, inputMetaQ := restM }
    let settingsAndState : Option Nat × PostProcState :=
      match s0.jpegSettingsQ with
      | [] => (none, s0)
      | sid :: restS => (some sid, { s0 with jpegSettingsQ := restS })
    let jpeg_settings := settingsAndState.1
    let s1 := settingsAndState.2
    if ¬mallocOk then
      (s1, ppPairFailRelease pp_buffer meta_buffer)
    else
      let pp_job : PPJob :=
        { src_frame := pp_buffer.input, fwk_src_frame := none,
          src_metadata := some meta_buffer, jpeg_settings := jpeg_settings }
      let s2 := { s1 with ongoingPPQ := s1.ongoingPPQ ++ [pp_job] }
      if s2.reprocChannel then
        if overrideOk then
          if reprocOk then
            (s2, [Ev.reprocCall pp_buffer.frameNumber])
          else
            ({ s2 with ongoingPPQ := s2.ongoingPPQ.dropLast },
             Ev.reprocCall pp_buffer.frameNumber ::
               ppPairFailRelease pp_buffer meta_buffer)
        else
          (s2, ppPairFailRelease pp_buffer meta_buffer)
      else
        let r := processPPDataStep s2 pp_buffer.input ppdMallocOk
        if r.2.2 = Status.noError then (r.1, r.2.1)
        else (r.1, r.2.1 ++ ppPairFailRelease pp_buffer meta_buffer)
  | _, _ => (s, [])

/-- The inactive branch of `CAMERA_CMD_TYPE_DO_NEXT_JOB`
(lines 1896-1924): with the dispatcher stopped, one item is dequeued from
each input queue.  A dequeued jpeg job is only `free`d (none of the
resources it holds are released); a dequeued pp buffer has its captured
buffer returned to the parent channel; a dequeued metadata buffer is
released; a dequeued framework frame is freed. -/
def inactiveDrain (s : PostProcState) : PostProcState × List Ev :=
  let r1 : PostProcState × List Ev :=
    match s.inputJpegQ with
    | [] => (s, [])
    | _ :: rest => ({ s with inputJpegQ := rest }, [])
  let r2 : PostProcState × List Ev :=
    match r1.1.inputPPQ with
    | [] => r1
    | pp_buf :: rest =>
      ({ r1.1 with inputPPQ := rest }, r1.2 ++ releasePPInputData pp_buf)
  let r3 : PostProcState × List Ev :=
    match r2.1.inputMetaQ with
    | [] => r2
    | m :: rest =>
      ({ r2.1 with inputMetaQ := rest }, r2.2 ++ [Ev.metadataBufDone m])
  match r3.1.inputFWKPPQ with
  | [] => r3
  | f :: rest =>
    ({ r3.1 with inputFWKPPQ := rest }, r3.2 ++ [Ev.freeFwkFrame f])

/-- The `CAMERA_CMD_TYPE_STOP_DATA_PROC` handler (lines 1692-1733): set
`is_active` to false; drain `m_ongoingJpegQ`, aborting each job by its
hardware job id and releasing it through `releaseJpegJobData`; destroy
the encode session when one exists; set `needNewSess`; flush
`m_ongoingPPQ`, `m_inputJpegQ`, `m_inputPPQ`, `m_inputFWKPPQ` and
`m_inputMetaQ` through their release callbacks (`m_jpegSettingsQ` is not
flushed). -/
def stopHandler (s : PostProcState) : PostProcState × List Ev :=
  let drainEvs := s.ongoingJpegQ.flatMap (fun j =>
    Ev.abortJob j.jobId :: releaseJpegJobData s.reprocChannel j)
  let sessEvs :=
    if 0 < s.mJpegSessionId then [Ev.destroySession s.mJpegSessionId]
    else []
  let flushEvs :=
    s.ongoingPPQ.flatMap releaseOngoingPPData ++
    s.inputJpegQ.flatMap (releaseJpegJobData s.reprocChannel) ++
    s.inputPPQ.flatMap releasePPInputData ++
    s.inputMetaQ.map Ev.metadataBufDone
  ({ s with is_active := false, ongoingJpegQ := [], mJpegSessionId := 0,
            needNewSess := true, ongoingPPQ := [], inputJpegQ := [],
            inputPPQ := [], inputFWKPPQ := [], inputMetaQ := [] },
   drainEvs ++ sessEvs ++ flushEvs)

/-- `QCamera3PostProcessor::stop` (lines 291-302): synchronous
`CAMERA_CMD_TYPE_STOP_DATA_PROC` handshake, then stop and delete the
reprocess channel when one exists.  Always returns `NO_ERROR`. -/
def stopOp (s : PostProcState) : PostProcState × List Ev × Status :=
  let r := stopHandler s
  if r.1.reprocChannel then
    ({ r.1 with reprocChannel := false }, r.2 ++ [Ev.channelDeleted],
     .noError)
  else (r.1, r.2, .noError)

/-- The `CAMERA_CMD_TYPE_START_DATA_PROC` handler (lines 1679-1691)
together with the channel provisioning in `start` (lines 214-248):
(re)create the reprocess channel when the configuration needs one, set
`is_active` and `needNewSess`, and re-initialise the five dispatcher
queues. -/
def startOp (s : PostProcState) (needChannel : Bool) : PostProcState :=
  { s with reprocChannel := needChannel, is_active := true,
           needNewSess := true, ongoingPPQ := [], inputJpegQ := [],
           inputPPQ := [], inputFWKPPQ := [], inputMetaQ := [] }

/-- `QCamera3PostProcessor::flush` (lines 262-276): drain
`m_ongoingJpegQ`, aborting and releasing each job. -/
def flushOp (s : PostProcState) : PostProcState × List Ev :=
  ({ s with ongoingJpegQ := [] },
   s.ongoingJpegQ.flatMap (fun j =>
     Ev.abortJob j.jobId :: releaseJpegJobData s.reprocChannel j))

/-- `processData(mm_camera_super_buf_t*, buffer_handle_t*, uint32_t)`
(lines 553-580): wrap the captured super-buffer and enqueue it into
`m_inputPPQ`. -/
def frameArrivedOp (s : PostProcState) (buf frameNumber : Nat) :
    PostProcState :=
  { s with inputPPQ := s.inputPPQ ++ [⟨some buf, frameNumber⟩] }

/-- `processPPMetadata` (lines 650-664): enqueue into `m_inputMetaQ`. -/
def metaArrivedOp (s : PostProcState) (meta : Nat) : PostProcState :=
  { s with inputMetaQ := s.inputMetaQ ++ [meta] }

/-- `processJpegSettingData` (lines 679-687): enqueue into
`m_jpegSettingsQ`. -/
def settingsArrivedOp (s : PostProcState) (settings : Nat) :
    PostProcState :=
  { s with jpegSettingsQ := s.jpegSettingsQ ++ [settings] }

/-- `processData(qcamera_fwk_input_pp_data_t*)` with a reprocess-type
configuration (lines 600-606): enqueue into `m_inputFWKPPQ`. -/
def fwkFrameArrivedOp (s : PostProcState) (frame : Nat) : PostProcState :=
  { s with inputFWKPPQ := s.inputFWKPPQ ++ [frame] }

/-- `processData(qcamera_fwk_input_pp_data_t*)` without reprocessing
(lines 607-632): dequeue the next settings record (`BAD_VALUE` when there
is none), allocate a jpeg job (`NO_MEMORY` on failure) and enqueue it
into `m_inputJpegQ`. -/
def fwkFrameNoReprocOp (s : PostProcState) (frame : Nat)
    (mallocOk : Bool) : PostProcState × Status :=
  match s.jpegSettingsQ with
  | [] => (s, .badValue)
  | sid :: restS =>
    let s0 := { s with jpegSettingsQ := restS }
    if ¬mallocOk then (s0, .noMemory)
    else
      let jpeg_job : JpegJob :=
        { src_frame := none, src_reproc_frame := none,
          fwk_frame := some frame, fwk_src_buffer := none,
          src_metadata := none, jpeg_settings := some sid, jobId := 0 }
      ({ s0 with inputJpegQ := s0.inputJpegQ ++ [jpeg_job] }, .noError)

/-- Encoder completion for the in-flight job: the jpeg callback looks the
job up via `findJpegJobByJobId` (lines 788-799), which dequeues the head
of `m_ongoingJpegQ`; the callback context (outside this file) then
releases the job through `releaseJpegJobData`. -/
def jpegDoneOp (s : PostProcState) : PostProcState × List Ev :=
  match s.ongoingJpegQ with
  | [] => (s, [])
  | job :: rest =>
    ({ s with ongoingJpegQ := rest },
     releaseJpegJobData s.reprocChannel job)

/-- One command delivered to the pipeline: dispatcher commands carry the
oracles for the fallible external calls they perform. -/
inductive Cmd where
  | start (needChannel : Bool)
  | stop
  | doNextJob (encodeOk : Bool) (newSess : Nat)
      (fwkMallocOk fwkReprocOk : Bool)
      (ppMallocOk ppOverrideOk ppReprocOk ppdMallocOk : Bool)
  | jpegDone
  | frameArrived (buf frameNumber : Nat)
  | metaArrived (meta : Nat)
  | settingsArrived (settings : Nat)
  | fwkFrameArrived (frame : Nat)
  | fwkFrameNoReproc (frame : Nat) (mallocOk : Bool)
  | ppCompleted (frame : Option Nat) (mallocOk : Bool)
  | flushCmd
deriving DecidableEq, Repr

/-- The `CAMERA_CMD_TYPE_DO_NEXT_JOB` handler (lines 1735-1925):
`needNewSess` is forced on; when active, run the jpeg block, the
framework-reprocess block and the captured-frame pairing block in order;
when inactive, drain. -/
def doNextJobStep (s : PostProcState) (encodeOk : Bool) (newSess : Nat)
    (fwkMallocOk fwkReprocOk ppMallocOk ppOverrideOk ppReprocOk
     ppdMallocOk : Bool) : PostProcState × List Ev :=
  let s0 := { s with needNewSess := true }
  if s0.is_active then
    let r1 := jpegBlock s0 encodeOk newSess
    let r2 := fwkPPBlock r1.1 fwkMallocOk fwkReprocOk
    let r3 := ppBlock r2.1 ppMallocOk ppOverrideOk ppReprocOk ppdMallocOk
    (r3.1, r1.2 ++ r2.2 ++ r3.2)
  else inactiveDrain s0

/-- The complete step relation of the post-processor. -/
def postProcStep (s : PostProcState) : Cmd → PostProcState × List Ev
  | .start needChannel => (startOp s needChannel, [])
  | .stop =>
    let r := stopOp s
    (r.1, r.2.1)
  | .doNextJob encodeOk newSess fwkMallocOk fwkReprocOk ppMallocOk
      ppOverrideOk ppReprocOk ppdMallocOk =>
    doNextJobStep s encodeOk newSess fwkMallocOk fwkReprocOk ppMallocOk
      ppOverrideOk ppReprocOk ppdMallocOk
  | .jpegDone => jpegDoneOp s
  | .frameArrived buf frameNumber => (frameArrivedOp s buf frameNumber, [])
  | .metaArrived meta => (metaArrivedOp s meta, [])
  | .settingsArrived settings => (settingsArrivedOp s settings, [])
  | .fwkFrameArrived frame => (fwkFrameArrivedOp s frame, [])
  | .fwkFrameNoReproc frame mallocOk =>
    ((fwkFrameNoReprocOp s frame mallocOk).1, [])
  | .ppCompleted frame mallocOk =>
    let r := processPPDataStep s frame mallocOk
    (r.1, r.2.1)
  | .flushCmd => flushOp s

/-- States reachable from the freshly constructed post-processor by any
sequence of commands. -/
inductive Reachable : PostProcState → Prop where
  | init : Reachable initState
  | step (s : PostProcState) (c : Cmd) :
      Reachable s → Reachable (postProcStep s c).1

/-! ### Theorems -/

/-- C9: the tag-entry collection has a fixed maximum capacity
(`MAX_HAL3_EXIF_TABLE_ENTRIES`); every `addEntry` call made when the
entry count has reached that capacity returns `NO_MEMORY` and leaves the
entry array and the entry count unchanged, affecting no previously added
entry. -/
theorem addEntry_at_capacity (e : QCamera3Exif) (entry : ExifEntry)
    (mallocOk : Bool)
    (h : e.entries.length ≥ MAX_HAL3_EXIF_TABLE_ENTRIES) :
    e.addEntry entry mallocOk = (e, Status.noMemory) := by
  simp [QCamera3Exif.addEntry, h]

/-- Witness for `addEntry_at_capacity` at a full 23-entry collection. -/
theorem addEntry_at_capacity_witness :
    (QCamera3Exif.mk (List.replicate 23 ⟨0, 0, 0⟩)).entries.length ≥
      MAX_HAL3_EXIF_TABLE_ENTRIES ∧
    (QCamera3Exif.mk (List.replicate 23 ⟨0, 0, 0⟩)).addEntry ⟨1, 2, 3⟩ true =
      (QCamera3Exif.mk (List.replicate 23 ⟨0, 0, 0⟩), Status.noMemory) :=
  ⟨by decide, addEntry_at_capacity _ _ _ (by decide)⟩

/-- C10: both encode-configuration builders replace a requested jpeg
quality that is at most zero by 85 and keep any strictly positive
requested quality unchanged. -/
theorem jpeg_quality_default (q : Nat) :
    (q ≤ 0 → getJpegEncodeConfigQuality q = 85 ∧
      getFWKJpegEncodeConfigQuality q = 85) ∧
    (0 < q → getJpegEncodeConfigQuality q = q ∧
      getFWKJpegEncodeConfigQuality q = q) := by
  constructor
  · intro h
    simp [getJpegEncodeConfigQuality, getFWKJpegEncodeConfigQuality, h]
  · intro h
    simp [getJpegEncodeConfigQuality, getFWKJpegEncodeConfigQuality,
      Nat.pos_iff_ne_zero.mp h]

/-- Witness for `jpeg_quality_default` at qualities 0 and 95. -/
theorem jpeg_quality_default_witness :
    (getJpegEncodeConfigQuality 0 = 85 ∧ getFWKJpegEncodeConfigQuality 0 = 85) ∧
    (getJpegEncodeConfigQuality 95 = 95 ∧ getFWKJpegEncodeConfigQuality 95 = 95) :=
  ⟨(jpeg_quality_default 0).1 (by decide), (jpeg_quality_default 95).2 (by decide)⟩

/-- C6 counterexample: the claim states that every nonzero raw exposure
value `V` produces the rational `(1, V)`; at `V = -1` the computation
instead fails with `BAD_VALUE` (the `getRational` guard rejects the
negative denominator), producing no rational at all. -/
theorem expTime_negative_counterexample :
    getExifExpTimeInfo (-1) = Except.error Status.badValue := by rfl

/-- C6 (amended): for every raw sensor exposure value `V` that is
positive and within `int` range, the exposure-time tag computation
produces the rational `(1, V)`; for `V = 0` it produces `(1, 60)`;
negative values are rejected with `BAD_VALUE` rather than encoded. -/
theorem expTime_amended (V : Int) :
    (0 < V → V < 2147483648 → getExifExpTimeInfo V = .ok ⟨1, V.toNat⟩) ∧
    (V = 0 → getExifExpTimeInfo V = .ok ⟨1, 60⟩) ∧
    (V < 0 → -2147483648 ≤ V →
      getExifExpTimeInfo V = .error Status.badValue) := by
  refine ⟨?_, ?_, ?_⟩
  · intro h1 h2
    have hne : ¬(V = 0) := by omega
    have hm : V % 4294967296 = V := Int.emod_eq_of_lt (by omega) (by omega)
    have hc : ¬((0:Int) > 1 ∨ 0 ≥ V) := by omega
    simp [getExifExpTimeInfo, int32OfInt64, getRational, hne, hm, h2, hc]
    omega
  · rintro rfl
    rfl
  · intro h1 h2
    have hne : ¬(V = 0) := by omega
    have hm : V % 4294967296 = V + 4294967296 := by omega
    have hge : ¬(V + 4294967296 < 2147483648) := by omega
    have hc : (0:Int) > 1 ∨ 0 ≥ V + 4294967296 - 4294967296 := by omega
    simp [getExifExpTimeInfo, int32OfInt64, getRational, hne, hm, hge, hc]
    omega

/-- Witness for `expTime_amended` at `V = 1000000`, `V = 0`, `V = -5`. -/
theorem expTime_amended_witness :
    getExifExpTimeInfo 1000000 = .ok ⟨1, 1000000⟩ ∧
    getExifExpTimeInfo 0 = .ok ⟨1, 60⟩ ∧
    getExifExpTimeInfo (-5) = .error Status.badValue :=
  ⟨(expTime_amended 1000000).1 (by decide) (by decide),
   (expTime_amended 0).2.1 rfl,
   (expTime_amended (-5)).2.2 (by decide) (by decide)⟩

/-- C1 counterexample: the claim states that the `encodeFWKData`
validation accepts a job whenever exactly one of the captured source
frame and the framework source frame is present; a job carrying only a
captured source frame (`src_frame` set, `fwk_frame` null, metadata and
settings present, valid client handle) has exactly one source present
yet is rejected with `BAD_VALUE` by the `fwk_frame` null check. -/
theorem encodeFWKData_validation_counterexample :
    encodeFWKDataValidate
      (some ⟨none, some 1, some 2, some 3⟩) 1 = some Status.badValue := by
  decide

/-- C1 (amended): for a non-null job with metadata, settings and a valid
client handle, the `encodeFWKData` prologue passes exactly when the
framework source frame is present and the captured source frame is
absent; in particular both-present and neither-present are rejected with
the invalid-argument error `BAD_VALUE` (and so is a job carrying only a
captured frame). -/
theorem encodeFWKData_validation (job : FwkJpegJobView) (handle : Nat)
    (hm : job.metadata ≠ none) (hs : job.jpeg_settings ≠ none)
    (hh : 0 < handle) :
    (encodeFWKDataValidate (some job) handle = none ↔
      job.fwk_frame ≠ none ∧ job.src_frame = none) ∧
    (job.fwk_frame ≠ none → job.src_frame ≠ none →
      encodeFWKDataValidate (some job) handle = some Status.badValue) ∧
    (job.fwk_frame = none →
      encodeFWKDataValidate (some job) handle = some Status.badValue) := by
  obtain ⟨ff, sf, md, js⟩ := job
  simp only [ne_eq] at hm hs
  have hh' : ¬handle ≤ 0 := by omega
  cases ff <;> cases sf <;>
    simp [encodeFWKDataValidate, hm, hs, hh']

/-- Witness for `encodeFWKData_validation`: a job with only the framework
frame present passes the prologue. -/
theorem encodeFWKData_validation_witness :
    (FwkJpegJobView.mk (some 4) none (some 2) (some 3)).metadata ≠ none ∧
    encodeFWKDataValidate (some ⟨some 4, none, some 2, some 3⟩) 1 = none :=
  ⟨by decide,
   ((encodeFWKData_validation ⟨some 4, none, some 2, some 3⟩ 1
      (by decide) (by decide) (by decide)).1).mpr (by decide)⟩

/-- C5: for a job built without hardware jpeg rotation support and with
requested orientation 90 or 270, both `encodeData` and `encodeFWKData`
swap the main image's source and destination width/height, both swap the
thumbnail's destination width/height identically, and the session
parameters built by `encodeData` carry the swapped source dimensions with
the stride and scan-line metadata swapped consistently; for orientation 0
or 180 (with or without hardware rotation support) no dimension, stride
or scan-line is swapped. -/
theorem orientation_swap (needJpegRotation : Bool) (o : Int)
    (src dst tsz : Dim) (moff toff : PlaneOffset) :
    ((o = 90 ∨ o = 270) →
      encodeDataJobDims false o src dst tsz true =
        ⟨swapDim src, swapDim dst, swapDim src, swapDim tsz, 0⟩ ∧
      encodeFWKDataJobDims false o src dst tsz true =
        ⟨swapDim src, swapDim dst, src, swapDim tsz, 0⟩ ∧
      encodeDataSessionParams false o src dst tsz moff toff =
        ⟨swapDim src, dst, swapDim src, tsz, ⟨moff.scanline, moff.stride⟩,
         ⟨toff.scanline, toff.stride⟩, 0⟩) ∧
    ((o = 0 ∨ o = 180) →
      encodeDataJobDims needJpegRotation o src dst tsz true =
        ⟨src, dst, src, tsz, if needJpegRotation then o else 0⟩ ∧
      encodeFWKDataJobDims needJpegRotation o src dst tsz true =
        ⟨src, dst, src, tsz, if needJpegRotation then o else 0⟩ ∧
      encodeDataSessionParams needJpegRotation o src dst tsz moff toff =
        ⟨src, dst, src, tsz, moff, toff,
         if needJpegRotation then o else 0⟩) := by
  constructor
  · rintro (rfl | rfl) <;>
      refine ⟨?_, ?_, ?_⟩ <;>
      simp [encodeDataJobDims, encodeFWKDataJobDims,
        encodeDataSessionParams, swapDim]
  · rintro (rfl | rfl) <;>
      cases needJpegRotation <;>
      refine ⟨?_, ?_, ?_⟩ <;>
      simp [encodeDataJobDims, encodeFWKDataJobDims,
        encodeDataSessionParams, swapDim]

/-- Witness for `orientation_swap` at orientation 270 (swap case) and at
orientation 180 with hardware rotation (no-swap case). -/
theorem orientation_swap_witness :
    encodeDataJobDims false 270 ⟨4000, 3000⟩ ⟨2000, 1500⟩ ⟨320, 240⟩ true =
      ⟨⟨3000, 4000⟩, ⟨1500, 2000⟩, ⟨3000, 4000⟩, ⟨240, 320⟩, 0⟩ ∧
    encodeDataJobDims true 180 ⟨4000, 3000⟩ ⟨2000, 1500⟩ ⟨320, 240⟩ true =
      ⟨⟨4000, 3000⟩, ⟨2000, 1500⟩, ⟨4000, 3000⟩, ⟨320, 240⟩, 180⟩ :=
  ⟨((orientation_swap false 270 ⟨4000, 3000⟩ ⟨2000, 1500⟩ ⟨320, 240⟩
      ⟨4096, 3008⟩ ⟨4096, 3008⟩).1 (Or.inr rfl)).1,
   ((orientation_swap true 180 ⟨4000, 3000⟩ ⟨2000, 1500⟩ ⟨320, 240⟩
      ⟨4096, 3008⟩ ⟨4096, 3008⟩).2 (Or.inr rfl)).1⟩

/-- C8: calling `stop()` twice in succession is idempotent: both calls
report success, the second call emits no action at all (no job aborted
twice, no session destroyed twice, no buffer released twice, no channel
torn down twice) and leaves the state exactly where the first call left
it. -/
theorem stop_idempotent (s : PostProcState) :
    (stopOp s).2.2 = Status.noError ∧
    (stopOp (stopOp s).1).2.2 = Status.noError ∧
    (stopOp (stopOp s).1).2.1 = [] ∧
    (stopOp (stopOp s).1).1 = (stopOp s).1 := by
  cases hc : s.reprocChannel <;>
    simp [stopOp, stopHandler, hc]

/-- C3 counterexample: the claim states that when the submission of a
postprocess job to the reprocessing channel fails, the job's encode
settings are freed.  For a pairing of captured buffer 1, metadata
buffer 2 and settings record 3 whose `doReprocessOffline` call fails, the
failure path returns the raw frame and releases the metadata but emits no
`freeSettings` event for the dequeued settings record: the settings are
leaked, not freed. -/
theorem pp_rollback_counterexample :
    Ev.parentBufDone 1 ∈
      (ppBlock { initState with reprocChannel := true,
                                inputPPQ := [⟨some 1, 10⟩],
                                inputMetaQ := [2],
                                jpegSettingsQ := [3] }
        true true false true).2 ∧
    Ev.metadataBufDone 2 ∈
      (ppBlock { initState with reprocChannel := true,
                                inputPPQ := [⟨some 1, 10⟩],
                                inputMetaQ := [2],
                                jpegSettingsQ := [3] }
        true true false true).2 ∧
    Ev.freeSettings 3 ∉
      (ppBlock { initState with reprocChannel := true,
                                inputPPQ := [⟨some 1, 10⟩],
                                inputMetaQ := [2],
                                jpegSettingsQ := [3] }
        true true false true).2 := by
  decide

/-- C3 (amended): for every postprocess job whose `doReprocessOffline`
submission to the reprocessing channel fails, the job is immediately
rolled back with no retry — exactly one submission attempt is made, the
job is removed from the ongoing postprocess queue, its raw frame is
returned to its originating channel and its metadata frame is released —
but the encode settings record dequeued for the job is not freed (it is
leaked on this path, since neither the failure path nor
`releasePPJobData` frees `jpeg_settings`). -/
theorem pp_rollback_amended (s : PostProcState) (pp_buffer : PPBuffer)
    (restP : List PPBuffer) (meta : Nat) (restM : List Nat) (sid : Nat)
    (restS : List Nat) (b : Nat) (ppdMallocOk : Bool)
    (hP : s.inputPPQ = pp_buffer :: restP)
    (hM : s.inputMetaQ = meta :: restM)
    (hS : s.jpegSettingsQ = sid :: restS)
    (hC : s.reprocChannel = true)
    (hB : pp_buffer.input = some b) :
    (ppBlock s true true false ppdMallocOk).1.ongoingPPQ = s.ongoingPPQ ∧
    (ppBlock s true true false ppdMallocOk).2 =
      [Ev.reprocCall pp_buffer.frameNumber, Ev.parentBufDone b,
       Ev.metadataBufDone meta] := by
  simp [ppBlock, hP, hM, hS, hC, hB, ppPairFailRelease]

/-- Witness for `pp_rollback_amended` at the concrete failing pairing of
buffer 1, metadata 2, settings 3. -/
theorem pp_rollback_amended_witness :
    (ppBlock { initState with reprocChannel := true,
                              inputPPQ := [⟨some 1, 10⟩],
                              inputMetaQ := [2],
                              jpegSettingsQ := [3] }
      true true false true).1.ongoingPPQ =
      ({ initState with reprocChannel := true,
                        inputPPQ := [⟨some 1, 10⟩],
                        inputMetaQ := [2],
                        jpegSettingsQ := [3] } : PostProcState).ongoingPPQ ∧
    (ppBlock { initState with reprocChannel := true,
                              inputPPQ := [⟨some 1, 10⟩],
                              inputMetaQ := [2],
                              jpegSettingsQ := [3] }
      true true false true).2 =
      [Ev.reprocCall 10, Ev.parentBufDone 1, Ev.metadataBufDone 2] :=
  pp_rollback_amended _ ⟨some 1, 10⟩ [] 2 [] 3 [] 1 true
    rfl rfl rfl rfl rfl

/-- C4 counterexample: the claim states that while the dispatcher is
Stopped, an advance wake releases every borrowed resource of each drained
item through that item's release path.  With a jpeg job holding
reprocessed buffer 7, metadata buffer 8 and settings 9 sitting in the
input jpeg queue, the inactive drain dequeues the job but emits no
release event at all — while the job's release path
(`releaseJpegJobData`) would have returned buffer 7, released metadata 8
and freed settings 9.  The borrowed buffers escape release. -/
theorem inactive_drain_counterexample :
    (inactiveDrain { initState with
                     reprocChannel := true,
                     inputJpegQ :=
                       [⟨some 7, none, none, none, some 8, some 9, 0⟩]
                   }).1.inputJpegQ = [] ∧
    (inactiveDrain { initState with
                     reprocChannel := true,
                     inputJpegQ :=
                       [⟨some 7, none, none, none, some 8, some 9, 0⟩]
                   }).2 = [] ∧
    releaseJpegJobData true ⟨some 7, none, none, none, some 8, some 9, 0⟩ =
      [Ev.reprocBufDone 7, Ev.metadataBufDone 8, Ev.freeSettings 9] := by
  decide

/-- C4 (amended): while the dispatcher is Stopped, an advance wake
dequeues one item from each input queue; a drained postprocess buffer has
its captured frame returned to its channel, a drained metadata buffer is
released and a drained framework frame is freed, but a drained jpeg job
is merely freed as a struct: none of the resources it holds (source
frame, metadata, settings) are released through its release path. -/
theorem inactive_drain_amended (s : PostProcState) (j : JpegJob)
    (restJ : List JpegJob) (pb : PPBuffer) (restP : List PPBuffer)
    (b : Nat) (m : Nat) (restM : List Nat) (f : Nat) (restF : List Nat)
    (hJ : s.inputJpegQ = j :: restJ)
    (hP : s.inputPPQ = pb :: restP)
    (hB : pb.input = some b)
    (hM : s.inputMetaQ = m :: restM)
    (hF : s.inputFWKPPQ = f :: restF) :
    (inactiveDrain s).1.inputJpegQ = restJ ∧
    (inactiveDrain s).1.inputPPQ = restP ∧
    (inactiveDrain s).1.inputMetaQ = restM ∧
    (inactiveDrain s).1.inputFWKPPQ = restF ∧
    (inactiveDrain s).2 =
      [Ev.parentBufDone b, Ev.metadataBufDone m, Ev.freeFwkFrame f] := by
  simp [inactiveDrain, hJ, hP, hB, hM, hF, releasePPInputData]

/-- Witness for `inactive_drain_amended` at a concrete stopped state with
one item in each input queue. -/
theorem inactive_drain_amended_witness :
    (inactiveDrain { initState with
                     inputJpegQ :=
                       [⟨some 7, none, none, none, some 8, some 9, 0⟩],
                     inputPPQ := [⟨some 1, 10⟩],
                     inputMetaQ := [2],
                     inputFWKPPQ := [5] }).1.inputJpegQ = [] ∧
    (inactiveDrain { initState with
                     inputJpegQ :=
                       [⟨some 7, none, none, none, some 8, some 9, 0⟩],
                     inputPPQ := [⟨some 1, 10⟩],
                     inputMetaQ := [2],
                     inputFWKPPQ := [5] }).2 =
      [Ev.parentBufDone 1, Ev.metadataBufDone 2, Ev.freeFwkFrame 5] := by
  refine ⟨?_, ?_⟩
  · exact (inactive_drain_amended _ ⟨some 7, none, none, none, some 8,
      some 9, 0⟩ [] ⟨some 1, 10⟩ [] 1 2 [] 5 [] rfl rfl rfl rfl rfl).1
  · exact (inactive_drain_amended _ ⟨some 7, none, none, none, some 8,
      some 9, 0⟩ [] ⟨some 1, 10⟩ [] 1 2 [] 5 [] rfl rfl rfl rfl rfl).2.2.2.2

theorem encodeCall_notin_releaseJpegJobData (ch : Bool) (job : JpegJob)
    (j : JpegJob) (q : List JpegJob) :
    Ev.encodeCall j q ∉ releaseJpegJobData ch job := by
  obtain ⟨sf, srf, ff, fsb, sm, js, jid⟩ := job
  cases sf <;> cases fsb <;> cases sm <;> cases ff <;> cases js <;>
    cases ch <;> simp [releaseJpegJobData]

theorem encodeCall_notin_releasePPInputData (pb : PPBuffer) (j : JpegJob)
    (q : List JpegJob) : Ev.encodeCall j q ∉ releasePPInputData pb := by
  obtain ⟨i, fn⟩ := pb
  cases i <;> simp [releasePPInputData]

theorem encodeCall_notin_releaseOngoingPPData (pp : PPJob) (j : JpegJob)
    (q : List JpegJob) : Ev.encodeCall j q ∉ releaseOngoingPPData pp := by
  obtain ⟨sf, ffs, sm, js⟩ := pp
  cases sf <;> cases sm <;> simp [releaseOngoingPPData, releasePPJobData]

theorem encodeCall_notin_ppPairFailRelease (pb : PPBuffer) (m : Nat)
    (j : JpegJob) (q : List JpegJob) :
    Ev.encodeCall j q ∉ ppPairFailRelease pb m := by
  obtain ⟨i, fn⟩ := pb
  cases i <;> simp [ppPairFailRelease]

theorem encodeCall_notin_iteDestroy (P : Prop) [Decidable P] (sid : Nat)
    (j : JpegJob) (q : List JpegJob) :
    Ev.encodeCall j q ∉ (if P then [Ev.destroySession sid] else []) := by
  split <;> simp

theorem encodeCall_notin_stopOp (s : PostProcState) (j : JpegJob)
    (q : List JpegJob) : Ev.encodeCall j q ∉ (stopOp s).2.1 := by
  cases hc : s.reprocChannel <;>
    simp [stopOp, stopHandler, hc, encodeCall_notin_releaseJpegJobData,
      encodeCall_notin_releasePPInputData,
      encodeCall_notin_releaseOngoingPPData, encodeCall_notin_iteDestroy]

theorem encodeCall_notin_flushOp (s : PostProcState) (j : JpegJob)
    (q : List JpegJob) : Ev.encodeCall j q ∉ (flushOp s).2 := by
  simp [flushOp, encodeCall_notin_releaseJpegJobData]

theorem encodeCall_notin_jpegDoneOp (s : PostProcState) (j : JpegJob)
    (q : List JpegJob) : Ev.encodeCall j q ∉ (jpegDoneOp s).2 := by
  unfold jpegDoneOp
  cases s.ongoingJpegQ <;>
    simp [encodeCall_notin_releaseJpegJobData]

theorem processPPDataStep_events (s : PostProcState) (f : Option Nat)
    (m : Bool) : (processPPDataStep s f m).2.1 = [] := by
  unfold processPPDataStep
  repeat' split
  all_goals rfl

theorem processPPDataStep_preserves (s : PostProcState) (f : Option Nat)
    (m : Bool) : (processPPDataStep s f m).1.ongoingJpegQ = s.ongoingJpegQ := by
  unfold processPPDataStep
  repeat' split
  all_goals rfl

theorem encodeCall_notin_fwkPPBlock (s : PostProcState) (a b : Bool)
    (j : JpegJob) (q : List JpegJob) :
    Ev.encodeCall j q ∉ (fwkPPBlock s a b).2 := by
  obtain ⟨act, nns, sess, ch, ijq, ojq, ippq, oppq, fwkq, metaq, setq⟩ := s
  cases fwkq <;> cases setq <;> cases a <;> cases ch <;> cases b <;>
    simp [fwkPPBlock]

theorem fwkPPBlock_preserves (s : PostProcState) (a b : Bool) :
    (fwkPPBlock s a b).1.ongoingJpegQ = s.ongoingJpegQ := by
  obtain ⟨act, nns, sess, ch, ijq, ojq, ippq, oppq, fwkq, metaq, setq⟩ := s
  cases fwkq <;> cases setq <;> cases a <;> cases ch <;> cases b <;>
    simp [fwkPPBlock]

theorem encodeCall_notin_ppBlock (s : PostProcState) (a b c d : Bool)
    (j : JpegJob) (q : List JpegJob) :
    Ev.encodeCall j q ∉ (ppBlock s a b c d).2 := by
  obtain ⟨act, nns, sess, ch, ijq, ojq, ippq, oppq, fwkq, metaq, setq⟩ := s
  cases ippq <;> cases metaq <;> cases setq <;> cases a <;> cases ch <;>
    cases b <;> cases c <;>
    simp [ppBlock, encodeCall_notin_ppPairFailRelease,
      processPPDataStep_events, apply_ite]

theorem ppBlock_preserves (s : PostProcState) (a b c d : Bool) :
    (ppBlock s a b c d).1.ongoingJpegQ = s.ongoingJpegQ := by
  obtain ⟨act, nns, sess, ch, ijq, ojq, ippq, oppq, fwkq, metaq, setq⟩ := s
  cases ippq <;> cases metaq <;> cases setq <;> cases a <;> cases ch <;>
    cases b <;> cases c <;>
    simp [ppBlock, processPPDataStep_preserves, apply_ite]

theorem encodeCall_notin_inactiveDrain (s : PostProcState) (j : JpegJob)
    (q : List JpegJob) : Ev.encodeCall j q ∉ (inactiveDrain s).2 := by
  obtain ⟨act, nns, sess, ch, ijq, ojq, ippq, oppq, fwkq, metaq, setq⟩ := s
  cases ijq <;> cases ippq <;> cases metaq <;> cases fwkq <;>
    simp [inactiveDrain, encodeCall_notin_releasePPInputData]

theorem inactiveDrain_preserves (s : PostProcState) :
    (inactiveDrain s).1.ongoingJpegQ = s.ongoingJpegQ := by
  obtain ⟨act, nns, sess, ch, ijq, ojq, ippq, oppq, fwkq, metaq, setq⟩ := s
  cases ijq <;> cases ippq <;> cases metaq <;> cases fwkq <;>
    simp [inactiveDrain]

theorem jpegBlock_len_le (s : PostProcState) (e : Bool) (n : Nat)
    (h : s.ongoingJpegQ.length ≤ 1) :
    (jpegBlock s e n).1.ongoingJpegQ.length ≤ 1 := by
  unfold jpegBlock
  cases hO : s.ongoingJpegQ with
  | cons x xs =>
    have hne : s.ongoingJpegQ.isEmpty = false := by simp [hO]
    simpa [hne] using h
  | nil =>
    cases hI : s.inputJpegQ <;> cases e <;> simp [hO, hI]

theorem jpegBlock_encodeCall (s : PostProcState) (e : Bool) (n : Nat)
    (j : JpegJob) (q : List JpegJob)
    (h : Ev.encodeCall j q ∈ (jpegBlock s e n).2) :
    s.ongoingJpegQ = [] ∧ s.inputJpegQ.head? = some j ∧ q = [j] := by
  unfold jpegBlock at h
  cases hO : s.ongoingJpegQ with
  | cons x xs =>
    rw [hO] at h
    simp at h
  | nil =>
    rw [hO] at h
    cases hI : s.inputJpegQ with
    | nil =>
      rw [hI] at h
      simp at h
    | cons jj rest =>
      rw [hI] at h
      cases e <;>
        simp [encodeCall_notin_releaseJpegJobData,
          encodeCall_notin_iteDestroy] at h <;>
        simp [hO, hI, h]

/-- C2: at every reachable state of the dispatcher, the ongoing jpeg
queue — which holds every job submitted to the hardware encoder and not
yet completed, aborted or rolled back — contains at most one job;
moreover every `encodeData`/`encodeFWKData` call is made only when the
ongoing jpeg queue was empty, for the job at the head of the input jpeg
queue, and with that job already placed in the ongoing jpeg queue (the
queue content at the moment of the call is exactly `[job]`). -/
theorem at_most_one_encode_in_flight :
    (∀ s, Reachable s → s.ongoingJpegQ.length ≤ 1) ∧
    (∀ s c job q, Ev.encodeCall job q ∈ (postProcStep s c).2 →
      s.ongoingJpegQ = [] ∧ s.inputJpegQ.head? = some job ∧ q = [job]) := by
  constructor
  · intro s h
    induction h with
    | init => simp [initState]
    | step s' c hr ih =>
      cases c with
      | start nc => simpa [postProcStep, startOp] using ih
      | stop =>
        cases hc : s'.reprocChannel <;>
          simp [postProcStep, stopOp, stopHandler, hc]
      | doNextJob eOk n fa fb pa pb pc pd =>
        cases hA : s'.is_active with
        | false =>
          simp only [postProcStep, doNextJobStep, hA, Bool.false_eq_true,
            if_false]
          rw [inactiveDrain_preserves]
          exact ih
        | true =>
          simp only [postProcStep, doNextJobStep, hA, if_true]
          rw [ppBlock_preserves, fwkPPBlock_preserves]
          exact jpegBlock_len_le _ _ _ ih
      | jpegDone =>
        simp only [postProcStep, jpegDoneOp]
        cases hO : s'.ongoingJpegQ with
        | nil => simp [hO]
        | cons x xs =>
          rw [hO] at ih
          simp only [List.length_cons] at ih
          simp only [hO]
          omega
      | frameArrived b fn => simpa [postProcStep, frameArrivedOp] using ih
      | metaArrived m => simpa [postProcStep, metaArrivedOp] using ih
      | settingsArrived sid =>
        simpa [postProcStep, settingsArrivedOp] using ih
      | fwkFrameArrived f =>
        simpa [postProcStep, fwkFrameArrivedOp] using ih
      | fwkFrameNoReproc f mOk =>
        simp only [postProcStep, fwkFrameNoReprocOp]
        cases hS : s'.jpegSettingsQ with
        | nil => simpa [hS] using ih
        | cons sid restS => cases mOk <;> simpa [hS] using ih
      | ppCompleted f mOk =>
        simp only [postProcStep]
        rw [processPPDataStep_preserves]
        exact ih
      | flushCmd => simp [postProcStep, flushOp]
  · intro s c job q h
    cases c with
    | start nc => simp [postProcStep] at h
    | stop => exact absurd h (encodeCall_notin_stopOp s job q)
    | doNextJob eOk n fa fb pa pb pc pd =>
      cases hA : s.is_active with
      | false =>
        simp only [postProcStep, doNextJobStep, hA, Bool.false_eq_true,
          if_false] at h
        exact absurd h (encodeCall_notin_inactiveDrain _ job q)
      | true =>
        simp only [postProcStep, doNextJobStep, hA, if_true] at h
        rcases List.mem_append.mp h with h12 | h3
        · rcases List.mem_append.mp h12 with h1 | h2
          · have hc := jpegBlock_encodeCall _ _ _ _ _ h1
            exact ⟨hc.1, hc.2.1, hc.2.2⟩
          · exact absurd h2 (encodeCall_notin_fwkPPBlock _ _ _ job q)
        · exact absurd h3 (encodeCall_notin_ppBlock _ _ _ _ _ job q)
    | jpegDone => exact absurd h (encodeCall_notin_jpegDoneOp s job q)
    | frameArrived b fn => simp [postProcStep] at h
    | metaArrived m => simp [postProcStep] at h
    | settingsArrived sid => simp [postProcStep] at h
    | fwkFrameArrived f => simp [postProcStep] at h
    | fwkFrameNoReproc f mOk => simp [postProcStep] at h
    | ppCompleted f mOk =>
      simp only [postProcStep] at h
      rw [processPPDataStep_events] at h
      simp at h
    | flushCmd => exact absurd h (encodeCall_notin_flushOp s job q)

/-- Witness for `at_most_one_encode_in_flight`: the invariant at the
initial state, and the submission discipline at a concrete active state
holding one queued jpeg job. -/
theorem at_most_one_encode_in_flight_witness :
    initState.ongoingJpegQ.length ≤ 1 ∧
    (({ initState with is_active := true,
                       inputJpegQ :=
                         [⟨none, none, some 5, none, none, some 6, 0⟩]
      } : PostProcState).ongoingJpegQ = [] ∧
     ({ initState with is_active := true,
                       inputJpegQ :=
                         [⟨none, none, some 5, none, none, some 6, 0⟩]
      } : PostProcState).inputJpegQ.head? =
        some ⟨none, none, some 5, none, none, some 6, 0⟩ ∧
     [⟨none, none, some 5, none, none, some 6, 0⟩] =
       [(⟨none, none, some 5, none, none, some 6, 0⟩ : JpegJob)]) :=
  ⟨at_most_one_encode_in_flight.1 initState Reachable.init,
   at_most_one_encode_in_flight.2
     { initState with is_active := true,
                      inputJpegQ :=
                        [⟨none, none, some 5, none, none, some 6, 0⟩] }
     (Cmd.doNextJob true 1 true true true true true true)
     ⟨none, none, some 5, none, none, some 6, 0⟩
     [⟨none, none, some 5, none, none, some 6, 0⟩]
     (by decide)⟩

theorem gpsRecombine_parse_bounds (x : ℚ) :
    0 ≤ |x| - gpsRecombine (parseGPSCoordinate x) ∧
    |x| - gpsRecombine (parseGPSCoordinate x) < 1 / 36000000 := by
  have hdeg : (if x < 0 then -x else x) = |x| := by
    rcases lt_or_le x 0 with hx | hx
    · rw [if_pos hx, abs_of_neg hx]
    · rw [if_neg (not_lt.mpr hx), abs_of_nonneg hx]
  have hct : ∀ q : ℚ, 0 ≤ q → ctrunc q = ⌊q⌋ := by
    intro q hq
    simp [ctrunc, not_lt.mpr hq]
  have ha0 : (0:ℚ) ≤ |x| := abs_nonneg x
  simp only [parseGPSCoordinate, gpsRecombine, hdeg]
  rw [hct _ ha0, Int.self_sub_floor]
  rw [hct _ (mul_nonneg (Int.fract_nonneg _) (by norm_num)),
    Int.self_sub_floor]
  rw [hct _ (mul_nonneg (mul_nonneg (Int.fract_nonneg _) (by norm_num))
    (by norm_num))]
  rw [show ((⌊|x|⌋ : ℤ) : ℚ) = |x| - Int.fract |x| from
    (Int.self_sub_fract _).symm]
  rw [show ((⌊Int.fract |x| * 60⌋ : ℤ) : ℚ) =
      Int.fract |x| * 60 - Int.fract (Int.fract |x| * 60) from
    (Int.self_sub_fract _).symm]
  rw [show ((⌊Int.fract (Int.fract |x| * 60) * 60 * 10000⌋ : ℤ) : ℚ) =
      Int.fract (Int.fract |x| * 60) * 60 * 10000 -
        Int.fract (Int.fract (Int.fract |x| * 60) * 60 * 10000) from
    (Int.self_sub_fract _).symm]
  have hw0 := Int.fract_nonneg (Int.fract (Int.fract |x| * 60) * 60 * 10000)
  have hw1 := Int.fract_lt_one (Int.fract (Int.fract |x| * 60) * 60 * 10000)
  constructor <;> linarith

theorem render6_close (value : ℚ) : |render6 value - value| ≤ 1 / 2000000 := by
  have h := abs_sub_round (value * 1000000)
  have h' : |((round (value * 1000000) : ℤ) : ℚ) - value * 1000000| =
      |value * 1000000 - ((round (value * 1000000) : ℤ) : ℚ)| :=
    abs_sub_comm _ _
  have e : render6 value - value =
      (((round (value * 1000000) : ℤ) : ℚ) - value * 1000000) / 1000000 := by
    unfold render6
    ring
  rw [e, abs_div, abs_of_pos (show (0:ℚ) < 1000000 by norm_num), h']
  linarith

/-- C7 counterexample: the claim states that the latitude reference
letter is `S` for every latitude strictly below zero.  At latitude
`-1/10000000` (i.e. -0.0000001 decimal degrees), `%f` renders the value
as `-0.000000`, the rendered value parses back as (negative) zero, and
the code picks `N` — not `S` — although the latitude is negative. -/
theorem gps_hemisphere_counterexample :
    ((-(1/10000000) : ℚ) < 0) ∧
    (getExifLatitude (-(1/10000000))).2 ≠ 'S' ∧
    (getExifLatitude (-(1/10000000))).2 = 'N' := by
  have hr : render6 (-(1/10000000)) = 0 := by
    unfold render6
    norm_num [round_eq]
  refine ⟨by norm_num, ?_, ?_⟩
  · show (if render6 (-(1/10000000) : ℚ) < 0 then 'S' else 'N') ≠ 'S'
    rw [hr]
    norm_num
    decide
  · show (if render6 (-(1/10000000) : ℚ) < 0 then 'S' else 'N') = 'N'
    rw [hr]
    norm_num

/-- C7 (amended): the hemisphere reference letter is chosen from the
value as rendered with six fractional digits (`N`/`E` when the rendered
value is at least zero, `S`/`W` when it is negative — which coincides
with the sign of the coordinate whenever its magnitude is at least
10⁻⁶); the sign is discarded only inside the coordinate parse, so the
produced (degrees, minutes, seconds×10000/10000) triplet — identical for
latitude and longitude — recombines as `degrees + minutes/60 +
seconds/3600` to within 10⁻⁴ of the coordinate's absolute value. -/
theorem gps_coordinate_amended (value : ℚ) :
    (0 ≤ render6 value →
      (getExifLatitude value).2 = 'N' ∧ (getExifLongitude value).2 = 'E') ∧
    (render6 value < 0 →
      (getExifLatitude value).2 = 'S' ∧ (getExifLongitude value).2 = 'W') ∧
    (getExifLongitude value).1 = (getExifLatitude value).1 ∧
    abs (gpsRecombine (getExifLatitude value).1 - |value|) ≤ 1 / 10000 := by
  refine ⟨?_, ?_, rfl, ?_⟩
  · intro h
    simp [getExifLatitude, getExifLongitude, not_lt.mpr h]
  · intro h
    simp [getExifLatitude, getExifLongitude, h]
  · show abs (gpsRecombine (parseGPSCoordinate (render6 value)) - |value|) ≤
      1 / 10000
    have hb := gpsRecombine_parse_bounds (render6 value)
    have hr := render6_close value
    have h1 : abs (|render6 value| - |value|) ≤ |render6 value - value| :=
      abs_abs_sub_abs_le_abs_sub _ _
    have h2 : abs (gpsRecombine (parseGPSCoordinate (render6 value)) -
        |value|) ≤
        abs (gpsRecombine (parseGPSCoordinate (render6 value)) -
          |render6 value|) + abs (|render6 value| - |value|) :=
      abs_sub_le _ _ _
    have h3 : abs (gpsRecombine (parseGPSCoordinate (render6 value)) -
        |render6 value|) =
        |render6 value| - gpsRecombine (parseGPSCoordinate (render6 value)) := by
      rw [abs_sub_comm]
      exact abs_of_nonneg hb.1
    linarith [hb.2]

/-- Witness for `gps_coordinate_amended` at coordinate 1/2 = 0.5. -/
theorem gps_coordinate_amended_witness :
    (0:ℚ) ≤ render6 (1/2) ∧ (getExifLatitude (1/2)).2 = 'N' ∧
    abs (gpsRecombine (getExifLatitude (1/2)).1 - |(1/2 : ℚ)|) ≤ 1 / 10000 :=
  ⟨by unfold render6; norm_num [round_eq],
   ((gps_coordinate_amended (1/2)).1
      (by unfold render6; norm_num [round_eq])).1,
   (gps_coordinate_amended (1/2)).2.2.2⟩

end QC3
